import Mathlib

/-!
Verification development for the DeviceNode reconciliation controller
(pkg/mgmt/devicenode/devicenode.go of openebs/device-localpv).

The controller keeps a single per-node DeviceNode record synchronized with
the set of storage devices present on the node.  We embed the data model and
the pure control logic of the controller: the owner-reference repair function
`isOwnerRefsUpdateRequired`, the convergence function `syncNode` (with the
external store and device provider modelled as an explicit environment of
responses), the key filter `enqueueNode`, the delete-event dispatcher
`deleteNode`, and the worker step `processNextWorkItem` (with the workqueue
interactions recorded as an explicit trace of operations).
-/

set_option autoImplicit false

namespace DeviceLocalPV

/-- Modelled from the spec: the Device value type lives in the apis package,
which is not under src/.  Per §3 it is a "value type (name, path-or-identifier,
capacity, other descriptive attributes)", immutable and compared by full
structural equality. -/
structure Device where
  name : String
  path : String
  capacity : Nat
deriving DecidableEq, Repr

/-- Modelled from the spec: OwnerReference comes from the external metadata
library.  Per §3 it is a "value type (owning-object identity (UID),
kind/apiVersion/name, controller-flag, block-owner-deletion-flag)".  In the
source the controller-flag is a nullable boolean pointer compared structurally,
so it is an Option Bool here. -/
structure OwnerReference where
  UID : String
  Kind : String
  APIVersion : String
  Name : String
  Controller : Option Bool
  BlockOwnerDeletion : Option Bool
deriving DecidableEq, Repr

/-- Modelled from the spec: the DeviceNode record type lives in the apis
package, which is not under src/.  Per §3 it is keyed by (namespace, name) and
carries a device set, an owner-reference set, a store-assigned version token
and creation metadata. -/
structure DeviceNode where
  Namespace : String
  Name : String
  ResourceVersion : String
  CreationTimestamp : Nat
  OwnerReferences : List OwnerReference
  Devices : List Device
deriving DecidableEq, Repr

/-- Modelled from the spec: the comparison function Semantic.DeepEqual comes
from pkg/equality, which is not under src/.  Per §4.3 step 4b the device
comparison is "full structural equality (order-insensitive for the purpose of
comparison)", i.e. the two lists are equal as multisets: one is a permutation
of the other, elements compared by full structural equality. -/
def semanticDeepEqualDevices (a b : List Device) : Bool :=
  decide (List.Perm a b)

/-- Embeds isOwnerRefsUpdateRequired (devicenode.go:291-309).  The Go loop
scans the slice in order; at the first entry whose UID equals the required
owner's UID it fixes the Controller field if it differs and returns
immediately; if the scan finds no match it appends the required owner
reference and reports a change. -/
def isOwnerRefsUpdateRequired (reqOwnerRef : OwnerReference) :
    List OwnerReference → List OwnerReference × Bool
  | [] => ([reqOwnerRef], true)
  | r :: rest =>
    if r.UID = reqOwnerRef.UID then
      if r.Controller = reqOwnerRef.Controller then
        (r :: rest, false)
      else
        ({ r with Controller := reqOwnerRef.Controller } :: rest, true)
    else
      let tail := isOwnerRefsUpdateRequired reqOwnerRef rest
      (r :: tail.1, tail.2)

/-- Modelled from the spec: the nodebuilder package is not under src/.  Per
§4.3 step 3 a freshly built record has the configured namespace/name, the
current device list and the required owner reference; the store-assigned
version token and creation metadata are not set by the builder, modelled as
zero values. -/
def buildNode (ns nm : String) (devices : List Device)
    (reqOwnerRef : OwnerReference) : DeviceNode :=
  { Namespace := ns
    Name := nm
    ResourceVersion := ""
    CreationTimestamp := 0
    OwnerReferences := [reqOwnerRef]
    Devices := devices }

/-- Result of the cached-store lookup in syncNode (devicenode.go:58-61):
a record, a not-found answer (not an error), or a store error. -/
inductive LookupResult where
  | found (node : DeviceNode)
  | notFound
  | storeErr (e : String)
deriving DecidableEq, Repr

/-- The responses of the external collaborators consumed by one pass of
syncNode: the cached-store lookup, the device provider enumeration, and
whether the store's create / update calls fail. -/
structure SyncEnv where
  lookup : LookupResult
  providerDevices : Except String (List Device)
  createErr : Option String
  updateErr : Option String
deriving Repr

deriving instance DecidableEq for Except

/-- Observable outcome of one syncNode pass: the record submitted to the
store's create call (if any), the record submitted to the update call
(if any), and the returned error value. -/
structure SyncResult where
  createdNode : Option DeviceNode
  updatedNode : Option DeviceNode
  result : Except String Unit
deriving DecidableEq, Repr

/-- Embeds syncNode (devicenode.go:56-119).  The store and the provider are
replaced by the response environment; the store-write calls become the
createdNode / updatedNode fields of the result.  The Go code looks up the
cached record (a non-notfound lookup error aborts), deep-copies it, obtains
the device list (a provider error aborts), creates a fresh record when none
was cached, and otherwise repairs the owner references and replaces the
device list on the copy, updating only when something changed. -/
def syncNode (reqOwnerRef : OwnerReference) (env : SyncEnv)
    (ns nm : String) : SyncResult :=
  match env.lookup with
  | LookupResult.storeErr e =>
      { createdNode := none, updatedNode := none, result := Except.error e }
  | LookupResult.notFound =>
      match env.providerDevices with
      | Except.error e =>
          { createdNode := none, updatedNode := none, result := Except.error e }
      | Except.ok devices =>
          let node := buildNode ns nm devices reqOwnerRef
          match env.createErr with
          | some e =>
              { createdNode := some node
                updatedNode := none
                result := Except.error
                  ("create device node " ++ ns ++ "/" ++ nm ++ ": " ++ e) }
          | none =>
              { createdNode := some node, updatedNode := none
                result := Except.ok () }
  | LookupResult.found cachedNode =>
      match env.providerDevices with
      | Except.error e =>
          { createdNode := none, updatedNode := none, result := Except.error e }
      | Except.ok devices =>
          let ownerRes := isOwnerRefsUpdateRequired reqOwnerRef cachedNode.OwnerReferences
        let node1 :=
          if ownerRes.2 then { cachedNode with OwnerReferences := ownerRes.1 }
          else cachedNode
        let devicesEqual := semanticDeepEqualDevices node1.Devices devices
        let node2 := if devicesEqual then node1 else { node1 with Devices := devices }
        if ownerRes.2 || !devicesEqual then
          match env.updateErr with
          | some e =>
              { createdNode := none
                updatedNode := some node2
                result := Except.error
                  ("update device node " ++ ns ++ "/" ++ nm ++ ": " ++ e) }
          | none =>
              { createdNode := none, updatedNode := some node2
                result := Except.ok () }
        else
          { createdNode := none, updatedNode := none, result := Except.ok () }

/-- Key encoding of the external store's cache library: the key of an object
is "namespace/name", or just "name" when the namespace is empty.  This is the
MetaNamespaceKeyFunc used by enqueueNode (devicenode.go:176). -/
def metaNamespaceKeyFunc (ns nm : String) : String :=
  if ns = "" then nm else ns ++ "/" ++ nm

/-- Embeds enqueueNode (devicenode.go:168-182).  The workqueue is modelled as
the list of keys added so far; the function returns the queue after the call.
A node whose namespace differs from the configured device namespace or whose
name differs from the configured node id is skipped with a warning; otherwise
its key is added. -/
def enqueueNode (deviceNamespace nodeID : String) (node : DeviceNode)
    (workqueue : List String) : List String :=
  if node.Namespace ≠ deviceNamespace ∨ node.Name ≠ nodeID then
    workqueue
  else
    workqueue ++ [metaNamespaceKeyFunc node.Namespace node.Name]

/-- Splits a list of characters at every slash. -/
def splitCharsOnSlash : List Char → List (List Char)
  | [] => [[]]
  | c :: cs =>
    let rest := splitCharsOnSlash cs
    if c = '/' then [] :: rest
    else
      match rest with
      | [] => [[c]]
      | p :: ps => (c :: p) :: ps

/-- Key decoding of the external store's cache library, used by syncHandler
(devicenode.go:45): SplitMetaNamespaceKey splits the key at slashes; one part
means an empty namespace, two parts mean namespace and name, anything else is
an invalid key encoding. -/
def splitMetaNamespaceKey (key : String) : Except String (String × String) :=
  match (splitCharsOnSlash key.toList).map (fun l => String.mk l) with
  | [nm] => Except.ok ("", nm)
  | [ns, nm] => Except.ok (ns, nm)
  | _ => Except.error ("unexpected key format: " ++ key)

/-- Embeds syncHandler (devicenode.go:43-52).  An invalid resource key is
logged and swallowed: the handler returns nil without touching the store.
A valid key is split into namespace and name and handed to syncNode. -/
def syncHandler (reqOwnerRef : OwnerReference) (env : SyncEnv)
    (key : String) : SyncResult :=
  match splitMetaNamespaceKey key with
  | Except.error _ =>
      { createdNode := none, updatedNode := none, result := Except.ok () }
  | Except.ok (ns, nm) => syncNode reqOwnerRef env ns nm

/-- The object wrapped inside a tombstone (DeletedFinalStateUnknown): either
a DeviceNode or some other dynamic type. -/
inductive TombObj where
  | deviceNode (node : DeviceNode)
  | otherType
deriving DecidableEq, Repr

/-- The dynamic payload of a delete notification as dispatched by deleteNode:
a DeviceNode, a tombstone wrapping some object, or some other dynamic type. -/
inductive DeleteEvent where
  | deviceNode (node : DeviceNode)
  | tombstone (obj : TombObj)
  | otherType
deriving DecidableEq, Repr

/-- Embeds deleteNode (devicenode.go:146-163).  A DeviceNode payload is
enqueued directly; a tombstone payload wrapping a DeviceNode has the node
recovered and enqueued; any other payload (including a tombstone wrapping
something else) is logged as an error and dropped. -/
def deleteNode (deviceNamespace nodeID : String) (ev : DeleteEvent)
    (workqueue : List String) : List String :=
  match ev with
  | DeleteEvent.deviceNode node => enqueueNode deviceNamespace nodeID node workqueue
  | DeleteEvent.tombstone (TombObj.deviceNode node) =>
      enqueueNode deviceNamespace nodeID node workqueue
  | DeleteEvent.tombstone TombObj.otherType => workqueue
  | DeleteEvent.otherType => workqueue

/-- A dynamic item dequeued from the workqueue: the expected string key, or an
item of some other type. -/
inductive QItem where
  | str (key : String)
  | nonString
deriving DecidableEq, Repr

/-- One workqueue call performed by the worker while handling a dequeued
item. -/
inductive QueueOp where
  | done (item : QItem)
  | forget (item : QItem)
  | addRateLimited (key : String)
deriving DecidableEq, Repr

/-- Embeds processNextWorkItem (devicenode.go:235-286) for a single dequeue.
The sync argument is the error outcome of syncHandler for a given key; the
Get result is none on queue shutdown.  The returned Bool is the function's
return value and the list is the trace of workqueue calls, in order (Done is
deferred, so it comes last).  A non-string item is forgotten and dropped; a
failed sync re-adds the key rate-limited (the wrapped error is then only
logged); a successful sync forgets the item. -/
def processNextWorkItem (sync : String → Option String) :
    Option QItem → Bool × List QueueOp
  | none => (false, [])
  | some obj =>
    match obj with
    | QItem.nonString =>
        (true, [QueueOp.forget QItem.nonString, QueueOp.done QItem.nonString])
    | QItem.str key =>
        match sync key with
        | some _ => (true, [QueueOp.addRateLimited key, QueueOp.done obj])
        | none => (true, [QueueOp.forget obj, QueueOp.done obj])

/-- The error outcome of syncHandler, in the shape processNextWorkItem
consumes. -/
def syncHandlerErr (reqOwnerRef : OwnerReference) (env : SyncEnv)
    (key : String) : Option String :=
  match (syncHandler reqOwnerRef env key).result with
  | Except.ok _ => none
  | Except.error e => some e

/-! Concrete sample values, used to evaluate the definitions on explicit
inputs. -/

/-- A sample device. -/
def devA : Device := { name := "sda", path := "/dev/sda", capacity := 100 }

/-- A second sample device. -/
def devB : Device := { name := "sdb", path := "/dev/sdb", capacity := 200 }

/-- A sample required owner reference (the controller's configured owner). -/
def reqOwnerRefEx : OwnerReference :=
  { UID := "uid-1", Kind := "Pod", APIVersion := "v1", Name := "owner-pod",
    Controller := some true, BlockOwnerDeletion := some true }

/-- The required owner reference with a wrong controller-flag. -/
def wrongFlagOwnerRefEx : OwnerReference :=
  { reqOwnerRefEx with Controller := some false }

/-- An owner reference of an unrelated owner (different UID). -/
def otherOwnerRefEx : OwnerReference := { reqOwnerRefEx with UID := "uid-2" }

/-- A sample cached DeviceNode record in steady state. -/
def nodeEx : DeviceNode :=
  { Namespace := "openebs", Name := "node-1", ResourceVersion := "42",
    CreationTimestamp := 7, OwnerReferences := [reqOwnerRefEx],
    Devices := [devA] }

/-- A cached record holding two owner references that share the required UID:
first one with a wrong controller-flag, then one fully equal to the required
owner reference. -/
def dupOwnerNodeEx : DeviceNode :=
  { nodeEx with OwnerReferences := [wrongFlagOwnerRefEx, reqOwnerRefEx] }

/-- A cached record whose device list is a non-trivial permutation source. -/
def permNodeEx : DeviceNode := { nodeEx with Devices := [devA, devB] }

/-- A record belonging to a different node (foreign name). -/
def foreignNodeEx : DeviceNode := { nodeEx with Name := "node-2" }

/-- The record nodeEx after a device-list replacement by the reconciler. -/
def updatedNodeEx : DeviceNode := { nodeEx with Devices := [devB] }

/-- A steady-state response environment around nodeEx. -/
def envEx : SyncEnv :=
  { lookup := LookupResult.found nodeEx, providerDevices := Except.ok [devA],
    createErr := none, updateErr := none }

/-- A sync outcome that always fails. -/
def syncAlwaysFails : String → Option String := fun _ => some "sync error"

/-- A sync outcome that always succeeds. -/
def syncAlwaysOk : String → Option String := fun _ => none

/-! Helper lemmas about the owner-reference repair scan. -/

/-- When no entry carries the required UID, the scan appends the required
owner reference and reports a change. -/
theorem ownerRefs_noMatch (req : OwnerReference) (refs : List OwnerReference)
    (h : ∀ x ∈ refs, x.UID ≠ req.UID) :
    isOwnerRefsUpdateRequired req refs = (refs ++ [req], true) := by
  induction refs with
  | nil => simp [isOwnerRefsUpdateRequired]
  | cons r rest ih =>
    have hr : r.UID ≠ req.UID := h r (List.mem_cons_self r rest)
    have ih2 := ih (fun x hx => h x (List.mem_cons_of_mem r hx))
    simp [isOwnerRefsUpdateRequired, hr, ih2]

/-- The scan stops at the first entry carrying the required UID: it fixes
only that entry's controller-flag when needed, leaving every earlier and
later entry untouched, and reports whether the flag differed. -/
theorem ownerRefs_firstMatch (req : OwnerReference) (l₁ l₂ : List OwnerReference)
    (r : OwnerReference) (h₁ : ∀ x ∈ l₁, x.UID ≠ req.UID) (hr : r.UID = req.UID) :
    isOwnerRefsUpdateRequired req (l₁ ++ r :: l₂) =
      if r.Controller = req.Controller then (l₁ ++ r :: l₂, false)
      else (l₁ ++ { r with Controller := req.Controller } :: l₂, true) := by
  induction l₁ with
  | nil =>
    by_cases hc : r.Controller = req.Controller <;>
      simp [isOwnerRefsUpdateRequired, hr, hc]
  | cons a l ih =>
    have ha : a.UID ≠ req.UID := h₁ a (List.mem_cons_self a l)
    have ih2 := ih (fun x hx => h₁ x (List.mem_cons_of_mem a hx))
    by_cases hc : r.Controller = req.Controller <;>
      simp [isOwnerRefsUpdateRequired, ha, ih2, hc]

/-- When the first entry found with the required UID already carries the
required controller-flag, the scan reports no change and returns the list
unchanged. -/
theorem ownerRefs_find_correct (req : OwnerReference) (refs : List OwnerReference)
    (r : OwnerReference)
    (hfind : refs.find? (fun x => x.UID == req.UID) = some r)
    (hctrl : r.Controller = req.Controller) :
    isOwnerRefsUpdateRequired req refs = (refs, false) := by
  induction refs with
  | nil => simp at hfind
  | cons a rest ih =>
    by_cases ha : a.UID = req.UID
    · have hfa : (a :: rest).find? (fun x => x.UID == req.UID) = some a :=
        List.find?_cons_of_pos rest (by simp [ha])
      rw [hfa] at hfind
      have : a = r := by injection hfind
      subst this
      simp [isOwnerRefsUpdateRequired, ha, hctrl]
    · have hfa : (a :: rest).find? (fun x => x.UID == req.UID) =
          rest.find? (fun x => x.UID == req.UID) :=
        List.find?_cons_of_neg rest (by simp [ha])
      rw [hfa] at hfind
      simp [isOwnerRefsUpdateRequired, ha, ih hfind]

/-! Helper lemmas about syncNode in the cached-record case. -/

/-- Steady state: when the owner-reference scan reports no change and the
cached device list is a permutation of the provider's list, the pass performs
no store write and returns nil. -/
theorem syncNode_noop (req : OwnerReference) (n : DeviceNode) (ds : List Device)
    (ce ue : Option String) (ns nm : String)
    (howner : (isOwnerRefsUpdateRequired req n.OwnerReferences).2 = false)
    (hdev : List.Perm n.Devices ds) :
    syncNode req
        { lookup := LookupResult.found n, providerDevices := Except.ok ds,
          createErr := ce, updateErr := ue } ns nm =
      { createdNode := none, updatedNode := none, result := Except.ok () } := by
  simp [syncNode, howner, semanticDeepEqualDevices, hdev]

/-- When the cached device list is a permutation of the provider's list, any
record the pass submits as an update keeps the cached device list. -/
theorem syncNode_perm_keeps_devices (req : OwnerReference) (n : DeviceNode)
    (ds : List Device) (ce ue : Option String) (ns nm : String)
    (hdev : List.Perm n.Devices ds) (u : DeviceNode)
    (hu : (syncNode req
        { lookup := LookupResult.found n, providerDevices := Except.ok ds,
          createErr := ce, updateErr := ue } ns nm).updatedNode = some u) :
    u.Devices = n.Devices := by
  by_cases howner : (isOwnerRefsUpdateRequired req n.OwnerReferences).2
  · cases ue with
    | none =>
      simp [syncNode, howner, semanticDeepEqualDevices, hdev] at hu
      simp [← hu]
    | some e =>
      simp [syncNode, howner, semanticDeepEqualDevices, hdev] at hu
      simp [← hu]
  · simp [syncNode, howner, semanticDeepEqualDevices, hdev] at hu

/-- When the cached device list is not a permutation of the provider's list,
the pass submits an update whose device list is the freshly observed list
verbatim. -/
theorem syncNode_devices_replaced (req : OwnerReference) (n : DeviceNode)
    (ds : List Device) (ce ue : Option String) (ns nm : String)
    (hdev : ¬ List.Perm n.Devices ds) :
    ∃ u, (syncNode req
        { lookup := LookupResult.found n, providerDevices := Except.ok ds,
          createErr := ce, updateErr := ue } ns nm).updatedNode = some u ∧
      u.Devices = ds := by
  by_cases howner : (isOwnerRefsUpdateRequired req n.OwnerReferences).2 <;>
    cases ue <;>
      simp [syncNode, howner, semanticDeepEqualDevices, hdev]

/-! Settled claims. -/

/-- C1: In syncNode, with a cached record present and the provider succeeding,
the device comparison is order-insensitive full structural equality: when the
cached record's device list is a permutation of the provider's list the
comparison reports equal and the Devices field is not replaced (and if the
owner scan also reports no change, no update is marked at all); when the two
differ as multisets, an update is submitted whose Devices field is the freshly
observed list verbatim. -/
theorem C1_device_comparison_order_insensitive (req : OwnerReference)
    (n : DeviceNode) (ds : List Device) (ns nm : String) :
    (List.Perm n.Devices ds →
      semanticDeepEqualDevices n.Devices ds = true ∧
      (∀ u, (syncNode req
          { lookup := LookupResult.found n, providerDevices := Except.ok ds,
            createErr := none, updateErr := none } ns nm).updatedNode = some u →
        u.Devices = n.Devices) ∧
      ((isOwnerRefsUpdateRequired req n.OwnerReferences).2 = false →
        syncNode req
            { lookup := LookupResult.found n, providerDevices := Except.ok ds,
              createErr := none, updateErr := none } ns nm =
          { createdNode := none, updatedNode := none, result := Except.ok () })) ∧
    (¬ List.Perm n.Devices ds →
      semanticDeepEqualDevices n.Devices ds = false ∧
      ∃ u, (syncNode req
          { lookup := LookupResult.found n, providerDevices := Except.ok ds,
            createErr := none, updateErr := none } ns nm).updatedNode = some u ∧
        u.Devices = ds) := by
  constructor
  · intro hperm
    refine ⟨by simp [semanticDeepEqualDevices, hperm], ?_, ?_⟩
    · intro u hu
      exact syncNode_perm_keeps_devices req n ds none none ns nm hperm u hu
    · intro howner
      exact syncNode_noop req n ds none none ns nm howner hperm
  · intro hperm
    refine ⟨by simp [semanticDeepEqualDevices, hperm], ?_⟩
    exact syncNode_devices_replaced req n ds none none ns nm hperm

/-- Witness for C1: with cached devices [devA, devB] and provider list
[devB, devA] (a permutation) the pass is a no-op; with cached devices [devA]
and provider list [devB] the pass submits an update carrying [devB]. -/
theorem C1_device_comparison_order_insensitive_witness :
    (syncNode reqOwnerRefEx
        { lookup := LookupResult.found permNodeEx,
          providerDevices := Except.ok [devB, devA],
          createErr := none, updateErr := none } "openebs" "node-1" =
      { createdNode := none, updatedNode := none, result := Except.ok () }) ∧
    (∃ u, (syncNode reqOwnerRefEx
        { lookup := LookupResult.found nodeEx,
          providerDevices := Except.ok [devB],
          createErr := none, updateErr := none } "openebs" "node-1").updatedNode =
          some u ∧ u.Devices = [devB]) := by
  constructor
  · exact ((C1_device_comparison_order_insensitive reqOwnerRefEx permNodeEx
      [devB, devA] "openebs" "node-1").1 (by decide)).2.2 (by decide)
  · exact ((C1_device_comparison_order_insensitive reqOwnerRefEx nodeEx
      [devB] "openebs" "node-1").2 (by decide)).2

/-- Counterexample for C2 as stated: dupOwnerNodeEx's owner-reference list
does contain an entry with the required UID and the correct controller-flag
(its second entry), and its device list matches the provider's list, yet the
pass performs an update write, because the scan stops at the first entry with
that UID, whose controller-flag is wrong. -/
theorem C2_counterexample :
    (∃ r ∈ dupOwnerNodeEx.OwnerReferences,
        r.UID = reqOwnerRefEx.UID ∧ r.Controller = reqOwnerRefEx.Controller) ∧
    List.Perm dupOwnerNodeEx.Devices [devA] ∧
    (syncNode reqOwnerRefEx
        { lookup := LookupResult.found dupOwnerNodeEx,
          providerDevices := Except.ok [devA],
          createErr := none, updateErr := none } "openebs" "node-1").updatedNode ≠
      none := by decide

/-- C2 (amended): idempotent no-op — for every cached record whose FIRST
owner-reference entry carrying the required owner's UID has the correct
controller-flag, and whose device set matches the provider's current list,
syncNode performs zero store-write calls (neither create nor update) and
returns nil. -/
theorem C2_idempotent_noop (req : OwnerReference) (n : DeviceNode)
    (ds : List Device) (ce ue : Option String) (ns nm : String)
    (r : OwnerReference)
    (hfind : n.OwnerReferences.find? (fun x => x.UID == req.UID) = some r)
    (hflag : r.Controller = req.Controller)
    (hdev : List.Perm n.Devices ds) :
    syncNode req
        { lookup := LookupResult.found n, providerDevices := Except.ok ds,
          createErr := ce, updateErr := ue } ns nm =
      { createdNode := none, updatedNode := none, result := Except.ok () } := by
  have howner := ownerRefs_find_correct req n.OwnerReferences r hfind hflag
  exact syncNode_noop req n ds ce ue ns nm (by simp [howner]) hdev

/-- Witness for C2 (amended): the steady-state record nodeEx with the provider
returning its own device list yields a pass with no store write. -/
theorem C2_idempotent_noop_witness :
    syncNode reqOwnerRefEx
        { lookup := LookupResult.found nodeEx,
          providerDevices := Except.ok [devA],
          createErr := none, updateErr := none } "openebs" "node-1" =
      { createdNode := none, updatedNode := none, result := Except.ok () } :=
  C2_idempotent_noop reqOwnerRefEx nodeEx [devA] none none "openebs" "node-1"
    reqOwnerRefEx (by decide) (by decide) (by decide)

/-- C4: the owner-reference repair contract — when no entry carries the
required UID, the required owner reference is appended verbatim after all
existing entries (none removed) and a change is reported; when some entry
does, the scan stops at the first such entry: if its controller-flag differs
it is corrected in place (all its other fields and all other entries
unchanged) and a change is reported, and if the flag is already correct the
list is returned unchanged with no change reported. -/
theorem C4_ownerRefs_repair_contract (req : OwnerReference) :
    (∀ refs : List OwnerReference, (∀ x ∈ refs, x.UID ≠ req.UID) →
      isOwnerRefsUpdateRequired req refs = (refs ++ [req], true)) ∧
    (∀ (l₁ l₂ : List OwnerReference) (r : OwnerReference),
      (∀ x ∈ l₁, x.UID ≠ req.UID) → r.UID = req.UID →
      isOwnerRefsUpdateRequired req (l₁ ++ r :: l₂) =
        if r.Controller = req.Controller then (l₁ ++ r :: l₂, false)
        else (l₁ ++ { r with Controller := req.Controller } :: l₂, true)) :=
  ⟨ownerRefs_noMatch req, fun l₁ l₂ r h₁ hr => ownerRefs_firstMatch req l₁ l₂ r h₁ hr⟩

/-- Witness for C4: appending when the UID is absent, and in-place
controller-flag repair at the first matching entry (later duplicate entries
untouched). -/
theorem C4_ownerRefs_repair_contract_witness :
    isOwnerRefsUpdateRequired reqOwnerRefEx [otherOwnerRefEx] =
      ([otherOwnerRefEx, reqOwnerRefEx], true) ∧
    isOwnerRefsUpdateRequired reqOwnerRefEx
        [otherOwnerRefEx, wrongFlagOwnerRefEx, wrongFlagOwnerRefEx] =
      ([otherOwnerRefEx,
        { wrongFlagOwnerRefEx with Controller := reqOwnerRefEx.Controller },
        wrongFlagOwnerRefEx], true) := by
  constructor
  · exact (C4_ownerRefs_repair_contract reqOwnerRefEx).1 [otherOwnerRefEx] (by decide)
  · have h := (C4_ownerRefs_repair_contract reqOwnerRefEx).2 [otherOwnerRefEx]
      [wrongFlagOwnerRefEx] wrongFlagOwnerRefEx (by decide) (by decide)
    simp only [List.cons_append, List.nil_append] at h
    rw [h]
    decide

/-- C3: create-on-absence — when the cache lookup reports not-found and the
provider's enumeration succeeds, syncNode performs exactly one create call and
no update call; the submitted record carries the key's namespace and name, a
device set equal to the provider's current list, and an owner-reference set
containing exactly the required owner reference; on create success the pass
returns nil with nothing further done, and a create failure surfaces as the
pass's error. -/
theorem C3_create_on_absence (req : OwnerReference) (ds : List Device)
    (ce ue : Option String) (ns nm : String) :
    syncNode req
        { lookup := LookupResult.notFound, providerDevices := Except.ok ds,
          createErr := ce, updateErr := ue } ns nm =
      { createdNode := some (buildNode ns nm ds req)
        updatedNode := none
        result :=
          match ce with
          | none => Except.ok ()
          | some e =>
              Except.error
                ("create device node " ++ ns ++ "/" ++ nm ++ ": " ++ e) } ∧
    buildNode ns nm ds req =
      { Namespace := ns, Name := nm, ResourceVersion := "",
        CreationTimestamp := 0, OwnerReferences := [req], Devices := ds } := by
  refine ⟨?_, rfl⟩
  cases ce <;> rfl

/-- C5: foreign-key rejection — enqueueNode adds a key to the work queue only
for the node whose namespace equals the configured device namespace and whose
name equals the configured node id; any node whose (namespace, name) differs
leaves the queue untouched. -/
theorem C5_foreign_key_rejection (deviceNamespace nodeID : String)
    (node : DeviceNode) (q : List String) :
    (¬ (node.Namespace = deviceNamespace ∧ node.Name = nodeID) →
      enqueueNode deviceNamespace nodeID node q = q) ∧
    (node.Namespace = deviceNamespace ∧ node.Name = nodeID →
      enqueueNode deviceNamespace nodeID node q =
        q ++ [metaNamespaceKeyFunc node.Namespace node.Name]) := by
  constructor
  · intro h
    rcases not_and_or.mp h with h1 | h1 <;> simp [enqueueNode, h1]
  · rintro ⟨h1, h2⟩
    simp [enqueueNode, h1, h2]

/-- Witness for C5: a foreign node (name node-2) is dropped; the configured
node's record is enqueued. -/
theorem C5_foreign_key_rejection_witness :
    enqueueNode "openebs" "node-1" foreignNodeEx [] = [] ∧
    enqueueNode "openebs" "node-1" nodeEx [] =
      [metaNamespaceKeyFunc nodeEx.Namespace nodeEx.Name] := by
  constructor
  · exact (C5_foreign_key_rejection "openebs" "node-1" foreignNodeEx []).1
      (by decide)
  · exact (C5_foreign_key_rejection "openebs" "node-1" nodeEx []).2 (by decide)

/-- C8: atomicity of a failed pass — a cache lookup failing with an error
other than not-found makes syncNode return that error with no store write; a
provider enumeration failure (either with no cached record or with one) makes
syncNode return that error with no store write; and every pass performs at
most one store-write call in total (never both a create and an update). -/
theorem C8_failed_pass_atomicity (req : OwnerReference) (env : SyncEnv)
    (ns nm : String) :
    (∀ e, env.lookup = LookupResult.storeErr e →
      syncNode req env ns nm =
        { createdNode := none, updatedNode := none, result := Except.error e }) ∧
    (∀ e, env.lookup = LookupResult.notFound →
      env.providerDevices = Except.error e →
      syncNode req env ns nm =
        { createdNode := none, updatedNode := none, result := Except.error e }) ∧
    (∀ e n, env.lookup = LookupResult.found n →
      env.providerDevices = Except.error e →
      syncNode req env ns nm =
        { createdNode := none, updatedNode := none, result := Except.error e }) ∧
    ((syncNode req env ns nm).createdNode = none ∨
      (syncNode req env ns nm).updatedNode = none) := by
  obtain ⟨lk, pd, ce, ue⟩ := env
  refine ⟨?_, ?_, ?_, ?_⟩
  · intro e he
    cases he
    rfl
  · intro e hl hp
    cases hl
    cases hp
    rfl
  · intro e n hl hp
    cases hl
    cases hp
    rfl
  · cases lk with
    | storeErr e => left; rfl
    | notFound =>
      cases pd with
      | error e => left; rfl
      | ok ds => right; cases ce <;> rfl
    | found n =>
      cases pd with
      | error e => left; rfl
      | ok ds =>
        left
        by_cases howner : (isOwnerRefsUpdateRequired req n.OwnerReferences).2 <;>
          by_cases hdev : semanticDeepEqualDevices n.Devices ds <;>
            cases ue <;> simp [syncNode, howner, hdev]

/-- Witness for C8: a lookup error is returned as-is (even when the provider
would also fail), a provider failure with a cached record is returned as-is,
and the steady-state pass performs at most one write. -/
theorem C8_failed_pass_atomicity_witness :
    syncNode reqOwnerRefEx
        { lookup := LookupResult.storeErr "etcd down",
          providerDevices := Except.error "lsblk failed",
          createErr := none, updateErr := none } "openebs" "node-1" =
      { createdNode := none, updatedNode := none,
        result := Except.error "etcd down" } ∧
    syncNode reqOwnerRefEx
        { lookup := LookupResult.found nodeEx,
          providerDevices := Except.error "lsblk failed",
          createErr := none, updateErr := none } "openebs" "node-1" =
      { createdNode := none, updatedNode := none,
        result := Except.error "lsblk failed" } ∧
    ((syncNode reqOwnerRefEx envEx "openebs" "node-1").createdNode = none ∨
      (syncNode reqOwnerRefEx envEx "openebs" "node-1").updatedNode = none) := by
  refine ⟨?_, ?_, ?_⟩
  · exact (C8_failed_pass_atomicity reqOwnerRefEx
      { lookup := LookupResult.storeErr "etcd down",
        providerDevices := Except.error "lsblk failed",
        createErr := none, updateErr := none } "openebs" "node-1").1
      "etcd down" rfl
  · exact (C8_failed_pass_atomicity reqOwnerRefEx
      { lookup := LookupResult.found nodeEx,
        providerDevices := Except.error "lsblk failed",
        createErr := none, updateErr := none } "openebs" "node-1").2.2.1
      "lsblk failed" nodeEx rfl rfl
  · exact (C8_failed_pass_atomicity reqOwnerRefEx envEx "openebs" "node-1").2.2.2

/-- C9: tombstone recovery — a delete notification whose payload is a
tombstone wrapping a DeviceNode is handled exactly like a live DeviceNode
payload (the wrapped node is recovered and enqueued); a payload that is
neither a DeviceNode nor a tombstone containing one leaves the queue
untouched. -/
theorem C9_tombstone_recovery (deviceNamespace nodeID : String)
    (n : DeviceNode) (q : List String) :
    deleteNode deviceNamespace nodeID
        (DeleteEvent.tombstone (TombObj.deviceNode n)) q =
      deleteNode deviceNamespace nodeID (DeleteEvent.deviceNode n) q ∧
    deleteNode deviceNamespace nodeID (DeleteEvent.deviceNode n) q =
      enqueueNode deviceNamespace nodeID n q ∧
    deleteNode deviceNamespace nodeID
        (DeleteEvent.tombstone TombObj.otherType) q = q ∧
    deleteNode deviceNamespace nodeID DeleteEvent.otherType q = q :=
  ⟨rfl, rfl, rfl, rfl⟩

/-- C10: update frame effect — whenever syncNode submits an update (cached
record present and provider succeeding), the submitted record agrees with the
cached record on every field other than Devices and OwnerReferences: its
namespace, name, store-assigned version token and creation metadata are those
of the cached record, and its Devices and OwnerReferences are either the
cached values or the freshly computed ones. -/
theorem C10_update_frame (req : OwnerReference) (n : DeviceNode)
    (ds : List Device) (ce ue : Option String) (ns nm : String)
    (u : DeviceNode)
    (hu : (syncNode req
        { lookup := LookupResult.found n, providerDevices := Except.ok ds,
          createErr := ce, updateErr := ue } ns nm).updatedNode = some u) :
    u.Namespace = n.Namespace ∧ u.Name = n.Name ∧
    u.ResourceVersion = n.ResourceVersion ∧
    u.CreationTimestamp = n.CreationTimestamp ∧
    (u.Devices = n.Devices ∨ u.Devices = ds) ∧
    (u.OwnerReferences = n.OwnerReferences ∨
      u.OwnerReferences = (isOwnerRefsUpdateRequired req n.OwnerReferences).1) := by
  by_cases howner : (isOwnerRefsUpdateRequired req n.OwnerReferences).2 <;>
    by_cases hdev : List.Perm n.Devices ds <;>
      cases ue <;>
        simp [syncNode, howner, semanticDeepEqualDevices, hdev] at hu <;>
          simp [← hu]

/-- Witness for C10: the update submitted for nodeEx when the provider
reports [devB] keeps nodeEx's namespace, name, version token and creation
metadata. -/
theorem C10_update_frame_witness :
    updatedNodeEx.Namespace = nodeEx.Namespace ∧
    updatedNodeEx.Name = nodeEx.Name ∧
    updatedNodeEx.ResourceVersion = nodeEx.ResourceVersion ∧
    updatedNodeEx.CreationTimestamp = nodeEx.CreationTimestamp ∧
    (updatedNodeEx.Devices = nodeEx.Devices ∨ updatedNodeEx.Devices = [devB]) ∧
    (updatedNodeEx.OwnerReferences = nodeEx.OwnerReferences ∨
      updatedNodeEx.OwnerReferences =
        (isOwnerRefsUpdateRequired reqOwnerRefEx nodeEx.OwnerReferences).1) :=
  C10_update_frame reqOwnerRefEx nodeEx [devB] none none "openebs" "node-1"
    updatedNodeEx (by decide)

/-- C6: worker-loop error containment — for every item actually dequeued,
Done is called exactly once; when the sync outcome for a string key is an
error, the key is re-added via AddRateLimited and Forget is not called; when
the sync outcome is nil (including no-op passes) Forget is called and no key
is re-added; and the function returns true, so no reconciliation error
propagates past the worker loop. -/
theorem C6_worker_error_containment (sync : String → Option String)
    (obj : QItem) :
    (processNextWorkItem sync (some obj)).1 = true ∧
    (processNextWorkItem sync (some obj)).2.count (QueueOp.done obj) = 1 ∧
    (∀ key e, obj = QItem.str key → sync key = some e →
      QueueOp.addRateLimited key ∈ (processNextWorkItem sync (some obj)).2 ∧
      QueueOp.forget obj ∉ (processNextWorkItem sync (some obj)).2) ∧
    (∀ key, obj = QItem.str key → sync key = none →
      QueueOp.forget obj ∈ (processNextWorkItem sync (some obj)).2 ∧
      ∀ k, QueueOp.addRateLimited k ∉ (processNextWorkItem sync (some obj)).2) := by
  cases obj with
  | nonString =>
    refine ⟨rfl, rfl, ?_, ?_⟩
    · intro key e hk
      exact absurd hk (by simp)
    · intro key hk
      exact absurd hk (by simp)
  | str key =>
    refine ⟨?_, ?_, ?_, ?_⟩
    · cases hs : sync key <;> simp [processNextWorkItem, hs]
    · cases hs : sync key <;> simp [processNextWorkItem, hs, List.count_cons]
    · intro key2 e hk hsync
      have : key = key2 := by injection hk
      subst this
      simp [processNextWorkItem, hsync]
    · intro key2 hk hsync
      have : key = key2 := by injection hk
      subst this
      simp [processNextWorkItem, hsync]

/-- Witness for C6: with a failing sync the key is re-added rate-limited;
with a successful sync the item is forgotten; both dequeues return true. -/
theorem C6_worker_error_containment_witness :
    (processNextWorkItem syncAlwaysFails (some (QItem.str "openebs/node-1"))).1 =
      true ∧
    QueueOp.addRateLimited "openebs/node-1" ∈
      (processNextWorkItem syncAlwaysFails (some (QItem.str "openebs/node-1"))).2 ∧
    QueueOp.forget (QItem.str "openebs/node-1") ∈
      (processNextWorkItem syncAlwaysOk (some (QItem.str "openebs/node-1"))).2 :=
  ⟨(C6_worker_error_containment syncAlwaysFails (QItem.str "openebs/node-1")).1,
   ((C6_worker_error_containment syncAlwaysFails (QItem.str "openebs/node-1")).2.2.1
      "openebs/node-1" "sync error" rfl rfl).1,
   ((C6_worker_error_containment syncAlwaysOk (QItem.str "openebs/node-1")).2.2.2
      "openebs/node-1" rfl rfl).1⟩

/-- C7: malformed or invalid items are dropped without retry — a dequeued
item that is not a string is forgotten, logged and the worker returns true
without requeueing anything; and a string key that fails the namespace/name
split makes syncHandler return nil without touching the store, so the worker
treats it as success: it forgets the item and requeues nothing. -/
theorem C7_malformed_items_dropped (req : OwnerReference) (env : SyncEnv)
    (sync : String → Option String) (key : String) :
    processNextWorkItem sync (some QItem.nonString) =
      (true, [QueueOp.forget QItem.nonString, QueueOp.done QItem.nonString]) ∧
    (∀ e, splitMetaNamespaceKey key = Except.error e →
      syncHandler req env key =
        { createdNode := none, updatedNode := none, result := Except.ok () } ∧
      processNextWorkItem (syncHandlerErr req env) (some (QItem.str key)) =
        (true, [QueueOp.forget (QItem.str key),
                QueueOp.done (QItem.str key)])) := by
  refine ⟨rfl, ?_⟩
  intro e he
  have h1 : syncHandler req env key =
      { createdNode := none, updatedNode := none, result := Except.ok () } := by
    simp [syncHandler, he]
  refine ⟨h1, ?_⟩
  simp [processNextWorkItem, syncHandlerErr, h1]

/-- Witness for C7: the three-part key a/b/c fails the split, is swallowed by
syncHandler, and its dequeue is forgotten without a rate-limited re-add; a
non-string item is likewise forgotten. -/
theorem C7_malformed_items_dropped_witness :
    processNextWorkItem syncAlwaysOk (some QItem.nonString) =
      (true, [QueueOp.forget QItem.nonString, QueueOp.done QItem.nonString]) ∧
    syncHandler reqOwnerRefEx envEx "a/b/c" =
      { createdNode := none, updatedNode := none, result := Except.ok () } ∧
    processNextWorkItem (syncHandlerErr reqOwnerRefEx envEx)
        (some (QItem.str "a/b/c")) =
      (true, [QueueOp.forget (QItem.str "a/b/c"),
              QueueOp.done (QItem.str "a/b/c")]) := by
  have h := (C7_malformed_items_dropped reqOwnerRefEx envEx syncAlwaysOk
    "a/b/c").2 "unexpected key format: a/b/c" (by decide)
  exact ⟨(C7_malformed_items_dropped reqOwnerRefEx envEx syncAlwaysOk "a/b/c").1,
    h.1, h.2⟩

end DeviceLocalPV
